import Mathlib

/-!
Verification of the anomaly detection & scoring engine of the
`detector-anomalias` repository.

The definitions below are a shallow embedding of the Python sources:
  - `scripts/reglas_negocio.py`            (rule engine)
  - `scripts/procesar_archivo_15min.py`    (15-minute path: fusion, severity,
                                            alert generation, alert append)
  - `src/3_detectar_anomalias.py`          (batch path: score normalization,
                                            severity, alert upsert)
  - `src/1_crear_features_temporales.py`   (feature engine: temporal flags,
                                            z-score vs terminal)

Numbers dispensed/averaged by the Python code are IEEE floats; they are
modelled by exact rationals `ℚ`, except where NaN/infinity behaviour is the
point of a claim, where the type `RFl` (a rational extended with `nan`,
`pinf`, `ninf`) models the float special values.
-/

/-- Dictionary of per-terminal historical features (a row of the
`features_ml` table, accessed in Python via `dict.get(key, default)`).
A field is `none` when the key is absent from the dictionary. -/
structure FeaturesHistoricos where
  dispensacion_promedio : Option ℚ
  dispensacion_std : Option ℚ
  disp_madrugada : Option ℚ
  ratio_vs_zona : Option ℚ
  pct_anomalias_3std : Option ℚ
deriving DecidableEq

/-- `features_historicos.get('dispensacion_promedio', 0)` -/
def FeaturesHistoricos.promedio (f : FeaturesHistoricos) : ℚ :=
  f.dispensacion_promedio.getD 0

/-- `features_historicos.get('dispensacion_std', 1)` -/
def FeaturesHistoricos.std (f : FeaturesHistoricos) : ℚ :=
  f.dispensacion_std.getD 1

/-- `features_historicos.get('disp_madrugada', 0)` -/
def FeaturesHistoricos.dispMadrugada (f : FeaturesHistoricos) : ℚ :=
  f.disp_madrugada.getD 0

/-- `features_historicos.get('ratio_vs_zona', 1)` -/
def FeaturesHistoricos.ratioVsZona (f : FeaturesHistoricos) : ℚ :=
  f.ratio_vs_zona.getD 1

/-- `features_historicos.get('pct_anomalias_3std', 0)` -/
def FeaturesHistoricos.pctAnomalias (f : FeaturesHistoricos) : ℚ :=
  f.pct_anomalias_3std.getD 0

/-- The data carried by the explanatory reason string each firing rule
appends to `razones` (`reglas_negocio.py`; the f-string formatting itself
is not modelled, only its arguments). -/
inductive Razon where
  | dispensacionExtrema (monto z promedio : ℚ)
  | horarioSospechoso (hora : ℕ)
  | cambioDrastico (aumento : Bool) (pct : ℚ)
  | historialAnomalias (pct : ℚ)
  | patronGeografico (mayor : Bool)
deriving DecidableEq

/-- REGLA 1 (`reglas_negocio.py` lines 39-52): extreme dispensation,
weight 0.30.  Returns `(z_score, score_parcial)` when the rule fires.
The z-score is only computed under the `std > 0` guard. -/
def regla1_dispensacion_extrema (dispensacion promedio std : ℚ) :
    Option (ℚ × ℚ) :=
  if 0 < std then
    if 3 < |(dispensacion - promedio) / std| then
      some (|(dispensacion - promedio) / std|,
            0.30 * min (|(dispensacion - promedio) / std| / 10) 1)
    else none
  else none

/-- REGLA 2 (`reglas_negocio.py` lines 54-67): suspicious hour,
weight 0.25.  Returns the `score_parcial` when the rule fires;
`ratio_madrugada` resolves to 0 unless `promedio > 0`. -/
def regla2_horario_sospechoso (promedio dispMadrugadaHist : ℚ)
    (horaActual : ℕ) (esMadrugada : Bool) : Option ℚ :=
  if esMadrugada = true ∨ horaActual ≤ 5 then
    if (if 0 < promedio then dispMadrugadaHist / promedio else 0) < 0.1 then
      some (0.25 * 1.0)
    else none
  else none

/-- REGLA 3 (`reglas_negocio.py` lines 69-81): drastic change,
weight 0.20.  `dispensacion_reciente_promedio` is `none` when the caller
passes `None` (the Python guard `if x and x > 0` then skips the rule).
Returns `(cambio_pct, score_parcial)` when the rule fires. -/
def regla3_cambio_drastico (dispensacion : ℚ) (dispReciente : Option ℚ) :
    Option (ℚ × ℚ) :=
  match dispReciente with
  | none => none
  | some reciente =>
    if 0 < reciente then
      if 200 < |((dispensacion - reciente) / reciente) * 100| then
        some (((dispensacion - reciente) / reciente) * 100,
              0.20 * min (|((dispensacion - reciente) / reciente) * 100| / 500) 1)
      else none
    else none

/-- REGLA 4 (`reglas_negocio.py` lines 83-93): history of anomalies,
weight 0.15.  Returns the `score_parcial` when the rule fires. -/
def regla4_historial_anomalias (pctAnomaliasHist : ℚ) : Option ℚ :=
  if 5 < pctAnomaliasHist then some (0.15 * min (pctAnomaliasHist / 20) 1)
  else none

/-- REGLA 5 (`reglas_negocio.py` lines 95-104): geographic pattern,
weight 0.10.  Returns the `score_parcial` when the rule fires. -/
def regla5_patron_geografico (ratioVsZona : ℚ) : Option ℚ :=
  if 3 < ratioVsZona ∨ ratioVsZona < 0.3 then
    some (0.10 * if 3 < ratioVsZona then 1.0 else 0.7)
  else none

/-- Result of `aplicar_reglas_negocio`: the capped total score, the list of
reason payloads (one per firing rule, in rule order), and the
`reglas_activadas` entries as `(rule name, score_parcial)` pairs. -/
structure ReglasResult where
  score : ℚ
  razones : List Razon
  activadas : List (String × ℚ)
deriving DecidableEq

/-- `aplicar_reglas_negocio` (`reglas_negocio.py`): evaluates the five
rules in order, sums the partial scores of the firing rules, caps the
total at 1.0, and collects one reason and one `reglas_activadas` entry
per firing rule. -/
def reglasDisparadas (dispensacionActual : ℚ) (f : FeaturesHistoricos)
    (horaActual : ℕ) (esMadrugada : Bool) (dispReciente : Option ℚ) :
    List (Razon × String × ℚ) :=
  List.filterMap id [
    (regla1_dispensacion_extrema dispensacionActual f.promedio f.std).map
      (fun p => (Razon.dispensacionExtrema dispensacionActual p.1 f.promedio,
                 "regla_1_dispensacion_extrema", p.2)),
    (regla2_horario_sospechoso f.promedio f.dispMadrugada horaActual
        esMadrugada).map
      (fun sp => (Razon.horarioSospechoso horaActual,
                  "regla_2_horario_sospechoso", sp)),
    (regla3_cambio_drastico dispensacionActual dispReciente).map
      (fun p => (Razon.cambioDrastico (decide (0 < p.1)) p.1,
                 "regla_3_cambio_drastico", p.2)),
    (regla4_historial_anomalias f.pctAnomalias).map
      (fun sp => (Razon.historialAnomalias f.pctAnomalias,
                  "regla_4_historial_anomalias", sp)),
    (regla5_patron_geografico f.ratioVsZona).map
      (fun sp => (Razon.patronGeografico (decide (3 < f.ratioVsZona)),
                  "regla_5_patron_geografico", sp))]

/-- Assembly of the result of `aplicar_reglas_negocio`: the accumulated
score is the sum of the firing rules' partial scores, capped at 1.0
(`score = min(score, 1.0)`); one reason and one `reglas_activadas` entry
per firing rule. -/
def aplicarReglasNegocio (dispensacionActual : ℚ) (f : FeaturesHistoricos)
    (horaActual : ℕ) (esMadrugada : Bool) (dispReciente : Option ℚ) :
    ReglasResult :=
  let disparadas := reglasDisparadas dispensacionActual f horaActual
    esMadrugada dispReciente
  { score := min ((disparadas.map (fun e => e.2.2)).sum) 1.0
    razones := disparadas.map (fun e => e.1)
    activadas := disparadas.map (fun e => e.2) }

/-- Weight of each rule, by its `reglas_activadas` name
(`reglas_negocio.py` comments: pesos 0.30, 0.25, 0.20, 0.15, 0.10). -/
def pesoRegla (nombre : String) : ℚ :=
  if nombre = "regla_1_dispensacion_extrema" then 0.30
  else if nombre = "regla_2_horario_sospechoso" then 0.25
  else if nombre = "regla_3_cambio_drastico" then 0.20
  else if nombre = "regla_4_historial_anomalias" then 0.15
  else if nombre = "regla_5_patron_geografico" then 0.10
  else 0

/-- Model of an IEEE double: a rational, or one of the special values
`nan`, `pinf` (+∞), `ninf` (−∞).  Used where NaN/∞ behaviour of the
Python code matters (pandas/numpy arithmetic). -/
inductive RFl where
  | fin (q : ℚ)
  | nan
  | pinf
  | ninf
deriving DecidableEq

/-- IEEE subtraction on the float model. -/
def RFl.sub : RFl → RFl → RFl
  | nan, _ => nan
  | _, nan => nan
  | fin a, fin b => fin (a - b)
  | fin _, pinf => ninf
  | fin _, ninf => pinf
  | pinf, fin _ => pinf
  | pinf, pinf => nan
  | pinf, ninf => pinf
  | ninf, fin _ => ninf
  | ninf, pinf => ninf
  | ninf, ninf => nan

/-- IEEE division on the float model (numpy semantics: `0/0 = nan`,
`x/0 = ±inf` for `x ≠ 0`). -/
def RFl.div : RFl → RFl → RFl
  | nan, _ => nan
  | _, nan => nan
  | fin a, fin b =>
    if b = 0 then (if a = 0 then nan else if 0 < a then pinf else ninf)
    else fin (a / b)
  | fin _, pinf => fin 0
  | fin _, ninf => fin 0
  | pinf, fin b => if 0 ≤ b then pinf else ninf
  | ninf, fin b => if 0 ≤ b then ninf else pinf
  | pinf, pinf => nan
  | pinf, ninf => nan
  | ninf, pinf => nan
  | ninf, ninf => nan

/-- IEEE multiplication on the float model (`0 * ±inf = nan`). -/
def RFl.mul : RFl → RFl → RFl
  | nan, _ => nan
  | _, nan => nan
  | fin a, fin b => fin (a * b)
  | fin a, pinf => if a = 0 then nan else if 0 < a then pinf else ninf
  | fin a, ninf => if a = 0 then nan else if 0 < a then ninf else pinf
  | pinf, fin b => if b = 0 then nan else if 0 < b then pinf else ninf
  | ninf, fin b => if b = 0 then nan else if 0 < b then ninf else pinf
  | pinf, pinf => pinf
  | pinf, ninf => ninf
  | ninf, pinf => ninf
  | ninf, ninf => pinf

/-- Minimum of two floats, NaN-propagating (numpy `min` over an array
containing NaN yields NaN). -/
def RFl.min2 : RFl → RFl → RFl
  | nan, _ => nan
  | _, nan => nan
  | ninf, _ => ninf
  | _, ninf => ninf
  | pinf, y => y
  | x, pinf => x
  | fin a, fin b => fin (min a b)

/-- Maximum of two floats, NaN-propagating. -/
def RFl.max2 : RFl → RFl → RFl
  | nan, _ => nan
  | _, nan => nan
  | pinf, _ => pinf
  | _, pinf => pinf
  | ninf, y => y
  | x, ninf => x
  | fin a, fin b => fin (max a b)

/-- `array.min()` of a numpy array (NaN-propagating). -/
def listMin : List RFl → RFl
  | [] => RFl.nan
  | h :: t => t.foldl RFl.min2 h

/-- `array.max()` of a numpy array (NaN-propagating). -/
def listMax : List RFl → RFl
  | [] => RFl.nan
  | h :: t => t.foldl RFl.max2 h

/-- `x >= c` for a float `x` and a finite constant `c`
(false when `x` is NaN, as in Python). -/
def RFl.geQ (x : RFl) (c : ℚ) : Bool :=
  match x with
  | fin q => decide (c ≤ q)
  | pinf => true
  | _ => false

/-- pandas `Series.fillna(0)`: replaces NaN by 0, leaves infinities. -/
def fillna0 (x : RFl) : RFl :=
  match x with
  | RFl.nan => RFl.fin 0
  | y => y

/-- Feature-engine z-score vs the terminal
(`src/1_crear_features_temporales.py` lines 149-152):
`(monto - promedio) / std.replace(0, nan)` followed by `.fillna(0)`.
`promedio`/`std` come from a left merge, so they are NaN (`RFl.nan`)
when the terminal has no row in `features_ml`. -/
def zScoreVsCajero (montoTotalDispensado : ℚ) (promedio std : RFl) : RFl :=
  fillna0 (RFl.div (RFl.sub (RFl.fin montoTotalDispensado) promedio)
    (if std = RFl.fin 0 then RFl.nan else std))

/-- Components that pandas extracts from the `bucket_15min` timestamp
(`dt.hour`, `dt.dayofweek` with Monday = 0, `dt.day`, `dt.month`). -/
structure BucketTs where
  hora : ℕ
  dayofweek : ℕ
  dia : ℕ
  mes : ℕ
deriving DecidableEq

/-- Temporal flag columns computed by `calcular_features_chunk`. -/
structure FlagsTemporales where
  hora_del_dia : ℕ
  dia_semana : ℕ
  mes : ℕ
  es_fin_de_semana : Bool
  es_fin_de_mes : Bool
  es_quincena : Bool
deriving DecidableEq

/-- Temporal flags of `calcular_features_chunk`
(`src/1_crear_features_temporales.py` lines 130-138):
`dia_semana = dayofweek + 1`, weekend when `dia_semana ∈ {6,7}`,
month-end when `dia >= 28`, quincena when
`(14 <= dia <= 16) or (dia >= 29 or dia <= 1)`. -/
def calcularFlagsTemporales (t : BucketTs) : FlagsTemporales :=
  let dia_semana := t.dayofweek + 1
  { hora_del_dia := t.hora
    dia_semana := dia_semana
    mes := t.mes
    es_fin_de_semana := decide (dia_semana = 6 ∨ dia_semana = 7)
    es_fin_de_mes := decide (28 ≤ t.dia)
    es_quincena := decide ((14 ≤ t.dia ∧ t.dia ≤ 16) ∨ (29 ≤ t.dia ∨ t.dia ≤ 1)) }

/-- Normalization used by the 15-minute path
(`scripts/procesar_archivo_15min.py` line 274):
`score_IF = 1 / (1 + np.exp(score_raw))`, a per-score sigmoid.
The exponential is supplied through its value `expScoreRaw = exp(score_raw)`
(always a positive real; any positive rational is a realizable value),
keeping the definition executable. -/
def scoreIFSigmoide (expScoreRaw : ℚ) : ℚ :=
  1 / (1 + expScoreRaw)

/-- Severity classification of the 15-minute path
(`scripts/procesar_archivo_15min.py` lines 302-310). -/
def clasificarSeveridad (scoreFinal : ℚ) : String :=
  if 0.9 ≤ scoreFinal then "Crítico"
  else if 0.7 ≤ scoreFinal then "Advertencia"
  else if 0.5 ≤ scoreFinal then "Sospechoso"
  else "Normal"

/-- Arguments of the `descripcion` f-string built by `detectar_anomalias`
(`scripts/procesar_archivo_15min.py` lines 316-324). -/
structure DescripcionAlerta where
  monto : ℚ
  promedioHistorico : ℚ
  razones : List Razon
deriving DecidableEq

/-- The `razones_json` payload of the 15-minute path
(`scripts/procesar_archivo_15min.py` lines 327-336). -/
structure RazonesJson where
  score_isolation_forest : ℚ
  score_reglas : ℚ
  score_final : ℚ
  razones_texto : List Razon
  reglas_activadas : List (String × ℚ)
deriving DecidableEq

/-- An alert dictionary built by the 15-minute path
(`scripts/procesar_archivo_15min.py` lines 338-352).  Timestamps are
modelled as natural numbers. -/
structure Alerta15 where
  cod_cajero : String
  fecha_hora : ℕ
  tipo_anomalia : String
  severidad : String
  score_anomalia : ℚ
  monto_dispensado : ℚ
  monto_esperado : ℚ
  desviacion_std : ℚ
  descripcion : DescripcionAlerta
  razones : RazonesJson
  modelo_usado : String
  fecha_deteccion : ℕ
deriving DecidableEq

/-- Per-terminal scoring of `detectar_anomalias`
(`scripts/procesar_archivo_15min.py` lines 237-354): combine the
Isolation-Forest score (already normalized to a fraction by the sigmoid;
passed here as `scoreIF`) with the rule score as
`score_final = 0.6 * score_IF + 0.4 * score_reglas`, classify severity,
and build an alert only when `score_final >= 0.5`.
`dispensacion_reciente_promedio` is passed as
`features_hist.get('dispensacion_promedio')` (default `None`).
Returns `(score_final, severidad, alerta?)`. -/
def procesarCajero (codCajero : String) (dispensacionActual : ℚ)
    (fechaHora horaActual : ℕ) (f : FeaturesHistoricos) (scoreIF : ℚ)
    (fechaDeteccion : ℕ) : ℚ × String × Option Alerta15 :=
  let esMadrugada := decide (horaActual ≤ 5)
  let r := aplicarReglasNegocio dispensacionActual f horaActual esMadrugada
    f.dispensacion_promedio
  let scoreFinal := 0.6 * scoreIF + 0.4 * r.score
  let severidad := clasificarSeveridad scoreFinal
  let alerta : Option Alerta15 :=
    if 0.5 ≤ scoreFinal then
      some { cod_cajero := codCajero
             fecha_hora := fechaHora
             tipo_anomalia := "dispensacion_anomala"
             severidad := severidad
             score_anomalia := scoreFinal
             monto_dispensado := dispensacionActual
             monto_esperado := f.promedio
             desviacion_std :=
               if 0 < f.dispensacion_std.getD 0 then
                 (dispensacionActual - f.promedio) / f.std
               else 0
             descripcion := ⟨dispensacionActual, f.promedio, r.razones⟩
             razones := ⟨scoreIF, r.score, scoreFinal, r.razones, r.activadas⟩
             modelo_usado := "isolation_forest+reglas"
             fecha_deteccion := fechaDeteccion }
    else none
  (scoreFinal, severidad, alerta)

/-- Feature preparation of the 15-minute path
(`scripts/procesar_archivo_15min.py` lines 256-263): for each name in the
artifact's `feature_names`, `features_hist.get(fname, 0)`, then NaN/∞
values are replaced by 0.  A name absent from the historical features
(`none`) silently becomes 0; the run never aborts here. -/
def prepararFeaturesModelo (featuresHist : String → Option RFl)
    (featureNames : List String) : List ℚ :=
  featureNames.map (fun fname =>
    match featuresHist fname with
    | some (RFl.fin q) => q
    | _ => 0)

/-- Column selection of the batch path
(`src/3_detectar_anomalias.py` line 158): `df_chunk[feature_names]`.
pandas raises `KeyError` — modelled by `none` — as soon as one requested
feature name is not a column of the chunk, aborting the run. -/
def seleccionarColumnas (dfColumnas : String → Option (List ℚ)) :
    List String → Option (List (List ℚ))
  | [] => some []
  | fname :: resto =>
    match dfColumnas fname with
    | none => none
    | some col => (seleccionarColumnas dfColumnas resto).map (col :: ·)

/-- Elementwise min-max normalization of the batch path
(`src/3_detectar_anomalias.py` lines 180-181):
`(scores - min) / (max - min)`, then `(1 - ...) * 100`. -/
def normalizarScore (mn mx s : RFl) : RFl :=
  RFl.mul (RFl.sub (RFl.fin 1) (RFl.div (RFl.sub s mn) (RFl.sub mx mn)))
    (RFl.fin 100)

/-- `scores_normalized` of `detectar_anomalias_chunk`: min-max over the
current chunk, inverted so that 100 = most anomalous. -/
def normalizarScores (scores : List RFl) : List RFl :=
  scores.map (normalizarScore (listMin scores) (listMax scores))

/-- `determinar_severidad` (`src/3_detectar_anomalias.py` lines 83-97).
`score_anomalia` is a float (possibly NaN: comparisons are then false);
`z_score_vs_cajero` comes from the features table. -/
def determinarSeveridad (scoreAnomalia : RFl) (zScoreVsCajero : ℚ) : String :=
  if RFl.geQ scoreAnomalia 80 && decide (4 ≤ |zScoreVsCajero|) then "critico"
  else if RFl.geQ scoreAnomalia 85 || decide (5 ≤ |zScoreVsCajero|) then "critico"
  else if RFl.geQ scoreAnomalia 70 || decide (3 ≤ |zScoreVsCajero|) then "alto"
  else "medio"

/-- `x > c` for a float `x` and a finite constant `c`
(false when `x` is NaN). -/
def RFl.gtQ (x : RFl) (c : ℚ) : Bool :=
  match x with
  | fin q => decide (c < q)
  | pinf => true
  | _ => false

/-- A row of the `features_temporales` chunk fed to
`detectar_anomalias_chunk`, together with the model outputs for that row
(`modelo.score_samples` raw score and `modelo.predict` label, produced by
the opaque Isolation-Forest artifact). Optional columns may be NULL
(pandas `notna` guards). -/
structure ChunkRow where
  cod_terminal : String
  bucket_15min : ℕ
  monto_total_dispensado : ℚ
  z_score_vs_cajero : ℚ
  z_score_vs_hora : Option ℚ
  z_score_vs_dia_semana : Option ℚ
  percentil_vs_mes : Option ℚ
  cambio_vs_anterior : Option ℚ
  hora_del_dia : ℕ
  dia_semana : ℕ
  es_fin_de_semana : Bool
  es_quincena : Bool
  score_raw : RFl
  prediction : ℤ
deriving DecidableEq

/-- The data carried by each reason string of `generar_razones`
(`src/3_detectar_anomalias.py` lines 99-128). -/
inductive RazonBatch where
  | zScoreVsCajero (z : ℚ)
  | zScoreVsHora (z : ℚ)
  | zScoreVsDiaSemana (z : ℚ)
  | percentilMensual (p : ℚ)
  | cambioVsAnterior (c : ℚ)
  | isolationForest (score : RFl)
  | anomaliaDetectadaPorModelo
deriving DecidableEq

/-- `generar_razones` (`src/3_detectar_anomalias.py` lines 99-128):
threshold checks on the row's features plus the normalized score; when no
reason fires the fallback text `Anomalia detectada por modelo` is used. -/
def generarRazones (row : ChunkRow) (scoreAnomalia : RFl) : List RazonBatch :=
  let razones : List RazonBatch := List.filterMap id [
    if 3 ≤ |row.z_score_vs_cajero| then
      some (RazonBatch.zScoreVsCajero row.z_score_vs_cajero) else none,
    row.z_score_vs_hora.bind (fun z =>
      if 3 ≤ |z| then some (RazonBatch.zScoreVsHora z) else none),
    row.z_score_vs_dia_semana.bind (fun z =>
      if 2.5 ≤ |z| then some (RazonBatch.zScoreVsDiaSemana z) else none),
    row.percentil_vs_mes.bind (fun p =>
      if 95 ≤ p then some (RazonBatch.percentilMensual p) else none),
    row.cambio_vs_anterior.bind (fun c =>
      if 200 ≤ |c| then some (RazonBatch.cambioVsAnterior c) else none),
    if RFl.geQ scoreAnomalia 70 then
      some (RazonBatch.isolationForest scoreAnomalia) else none]
  if razones.isEmpty then [RazonBatch.anomaliaDetectadaPorModelo] else razones

/-- Arguments of the `descripcion` f-string of `generar_descripcion`
(`src/3_detectar_anomalias.py` lines 130-152); `desviacion_pct` is
`(monto - esperado) / esperado * 100` when `esperado > 0`, else 0. -/
structure DescripcionBatch where
  monto : ℚ
  desviacion_pct : RFl
  dia_semana : ℕ
  hora_del_dia : ℕ
  z_score_vs_cajero : ℚ
  es_fin_de_semana : Bool
  es_quincena : Bool
deriving DecidableEq

/-- `generar_descripcion` applied to a row and its expected amount. -/
def generarDescripcion (row : ChunkRow) (montoEsperado : RFl) :
    DescripcionBatch :=
  { monto := row.monto_total_dispensado
    desviacion_pct :=
      if RFl.gtQ montoEsperado 0 then
        RFl.mul (RFl.div (RFl.sub (RFl.fin row.monto_total_dispensado)
          montoEsperado) montoEsperado) (RFl.fin 100)
      else RFl.fin 0
    dia_semana := row.dia_semana
    hora_del_dia := row.hora_del_dia
    z_score_vs_cajero := row.z_score_vs_cajero
    es_fin_de_semana := row.es_fin_de_semana
    es_quincena := row.es_quincena }

/-- An alert dictionary built by the batch path
(`src/3_detectar_anomalias.py` lines 210-223). -/
structure AlertaBatch where
  cod_cajero : String
  fecha_hora : ℕ
  tipo_anomalia : String
  severidad : String
  score_anomalia : RFl
  monto_dispensado : ℚ
  monto_esperado : RFl
  desviacion_std : ℚ
  descripcion : DescripcionBatch
  razones : List RazonBatch
  modelo_usado : String
  fecha_deteccion : ℕ
deriving DecidableEq

/-- `detectar_anomalias_chunk` (`src/3_detectar_anomalias.py` lines
154-227): min-max-normalize the chunk's raw scores (inverted, ×100),
keep the rows the model labels `-1`, and build one alert per kept row.
`ahora` models `datetime.now()`. -/
def detectarAnomaliasChunk (rows : List ChunkRow) (ahora : ℕ) :
    List AlertaBatch :=
  let scoresNormalized := normalizarScores (rows.map (fun r => r.score_raw))
  let anomalias := (rows.zip scoresNormalized).filter
    (fun p => p.1.prediction = -1)
  anomalias.map (fun p =>
    let row := p.1
    let scoreAnomalia := p.2
    let montoEsperado :=
      if row.z_score_vs_cajero ≠ 0 then
        RFl.div (RFl.fin row.monto_total_dispensado)
          (RFl.fin (1 + row.z_score_vs_cajero))
      else RFl.fin row.monto_total_dispensado
    { cod_cajero := row.cod_terminal
      fecha_hora := row.bucket_15min
      tipo_anomalia := "isolation_forest"
      severidad := determinarSeveridad scoreAnomalia row.z_score_vs_cajero
      score_anomalia := scoreAnomalia
      monto_dispensado := row.monto_total_dispensado
      monto_esperado := montoEsperado
      desviacion_std := |row.z_score_vs_cajero|
      descripcion := generarDescripcion row montoEsperado
      razones := generarRazones row scoreAnomalia
      modelo_usado := "isolation_forest_v2"
      fecha_deteccion := ahora })

/-- A row of the `alertas_dispensacion` table: the twelve columns both
writers produce (`src/3_detectar_anomalias.py` lines 235-244,
`scripts/procesar_archivo_15min.py` lines 386-396).  Free-text and JSON
payloads are plain strings here; timestamps are naturals. -/
structure AlertaRow where
  cod_cajero : String
  fecha_hora : ℕ
  tipo_anomalia : String
  severidad : String
  score_anomalia : ℚ
  monto_dispensado : ℚ
  monto_esperado : ℚ
  desviacion_std : ℚ
  descripcion : String
  razones : String
  modelo_usado : String
  fecha_deteccion : ℕ
deriving DecidableEq

/-- The `ON CONFLICT (cod_cajero, fecha_hora)` key of the upsert. -/
def mismaClave (a b : AlertaRow) : Bool :=
  a.cod_cajero = b.cod_cajero && a.fecha_hora = b.fecha_hora

/-- The `DO UPDATE SET` clause of `insertar_alertas_batch`
(`src/3_detectar_anomalias.py` lines 245-251): overwrite `severidad`,
`score_anomalia`, `desviacion_std`, `descripcion`, `razones`,
`fecha_deteccion` with the excluded (new) row's values; the remaining
columns keep the stored row's values. -/
def actualizarPorConflicto (viejo nuevo : AlertaRow) : AlertaRow :=
  { viejo with
    severidad := nuevo.severidad
    score_anomalia := nuevo.score_anomalia
    desviacion_std := nuevo.desviacion_std
    descripcion := nuevo.descripcion
    razones := nuevo.razones
    fecha_deteccion := nuevo.fecha_deteccion }

/-- One `INSERT ... ON CONFLICT ... DO UPDATE` of
`insertar_alertas_batch`: update the row with the same key if present,
otherwise append the new row. -/
def upsertAlerta (tabla : List AlertaRow) (a : AlertaRow) : List AlertaRow :=
  if tabla.any (fun r => mismaClave r a) then
    tabla.map (fun r => if mismaClave r a then actualizarPorConflicto r a else r)
  else tabla ++ [a]

/-- `insertar_alertas_batch` (`src/3_detectar_anomalias.py` lines
229-263): upsert every alert of the batch and return the batch length;
on a batch failure (`falloBatch`, the `except` branch) roll back — the
table is unchanged — and return 0.  The exception is caught, so the
caller always continues. -/
def insertarAlertasBatch (tabla : List AlertaRow) (alertas : List AlertaRow)
    (falloBatch : Bool) : List AlertaRow × ℕ :=
  if falloBatch then (tabla, 0)
  else (alertas.foldl upsertAlerta tabla, alertas.length)

/-- Modelled from the spec: the `alertas_dispensacion` schema is created
outside `src/` (only its readers and writers are there); the spec's
persistence schema declares a unique constraint on
(terminal, window timestamp) — the same unique index that
`insertar_alertas_batch`'s `ON CONFLICT (cod_cajero, fecha_hora)` clause
requires to exist.  `hayConflictoClave tabla alertas` holds when
appending `alertas` to `tabla` would violate that constraint: some
appended row's key is already stored, or repeats within the batch. -/
def hayConflictoClave (tabla : List AlertaRow) :
    List AlertaRow → Bool
  | [] => false
  | a :: resto =>
    tabla.any (fun r => mismaClave r a) ||
      hayConflictoClave (tabla ++ [a]) resto

/-- `guardar_alertas` (`scripts/procesar_archivo_15min.py` lines
375-399): `df_alertas.to_sql('alertas_dispensacion',
if_exists='append')` — a plain append with no conflict handling, run as
one transaction.  Under the store's unique (cod_cajero, fecha_hora) key
a duplicate append raises a unique-violation; the exception is not
caught, so the run aborts (`none`) and the rolled-back transaction
leaves the table unchanged.  A conflict-free append stores the rows. -/
def guardarAlertas (tabla : List AlertaRow) (alertas : List AlertaRow) :
    Option (List AlertaRow) :=
  if hayConflictoClave tabla alertas then none else some (tabla ++ alertas)

/-- The chunk loop of `procesar_deteccion`
(`src/3_detectar_anomalias.py` lines 290-318) restricted to its alert
persistence: each chunk contributes one batch insertion (with its own
failure outcome) and the returned counts are accumulated; no batch
outcome stops the loop. -/
def procesarDeteccion (tabla : List AlertaRow)
    (lotes : List (List AlertaRow × Bool)) : List AlertaRow × ℕ :=
  lotes.foldl (fun acc lote =>
    let r := insertarAlertasBatch acc.1 lote.1 lote.2
    (r.1, acc.2 + r.2)) (tabla, 0)

/-! Helper lemmas about the individual rules. -/

theorem regla1_parcial_en_rango (d p s : ℚ) (x : ℚ × ℚ)
    (h : regla1_dispensacion_extrema d p s = some x) :
    0 ≤ x.2 ∧ x.2 ≤ 0.30 := by
  unfold regla1_dispensacion_extrema at h
  split_ifs at h with h1 h2
  · cases h
    have hz : (0:ℚ) ≤ |(d - p) / s| := abs_nonneg _
    have hmin1 : min (|(d - p) / s| / 10) 1 ≤ 1 := min_le_right _ _
    have hmin0 : (0:ℚ) ≤ min (|(d - p) / s| / 10) 1 :=
      le_min (by positivity) (by norm_num)
    constructor <;> nlinarith

theorem regla2_parcial_en_rango (p m : ℚ) (hora : ℕ) (esM : Bool) (x : ℚ)
    (h : regla2_horario_sospechoso p m hora esM = some x) :
    0 ≤ x ∧ x ≤ 0.25 := by
  unfold regla2_horario_sospechoso at h
  split_ifs at h <;> cases h <;> norm_num

theorem regla3_parcial_en_rango (d : ℚ) (dr : Option ℚ) (x : ℚ × ℚ)
    (h : regla3_cambio_drastico d dr = some x) :
    0 ≤ x.2 ∧ x.2 ≤ 0.20 := by
  unfold regla3_cambio_drastico at h
  rcases dr with _ | reciente
  · cases h
  · simp only at h
    split_ifs at h with h1 h2
    · cases h
      have hz : (0:ℚ) ≤ |(d - reciente) / reciente * 100| := abs_nonneg _
      have hmin1 : min (|(d - reciente) / reciente * 100| / 500) 1 ≤ 1 :=
        min_le_right _ _
      have hmin0 : (0:ℚ) ≤ min (|(d - reciente) / reciente * 100| / 500) 1 :=
        le_min (by positivity) (by norm_num)
      constructor <;> nlinarith

theorem regla4_parcial_en_rango (p : ℚ) (x : ℚ)
    (h : regla4_historial_anomalias p = some x) :
    0 ≤ x ∧ x ≤ 0.15 := by
  unfold regla4_historial_anomalias at h
  split_ifs at h with h1
  · cases h
    have hmin1 : min (p / 20) 1 ≤ 1 := min_le_right _ _
    have hmin0 : (0:ℚ) ≤ min (p / 20) 1 :=
      le_min (by nlinarith) (by norm_num)
    constructor <;> nlinarith

theorem regla5_parcial_en_rango (r : ℚ) (x : ℚ)
    (h : regla5_patron_geografico r = some x) :
    0 ≤ x ∧ x ≤ 0.10 := by
  unfold regla5_patron_geografico at h
  split_ifs at h <;> cases h <;> norm_num

theorem mem_reglasDisparadas_spec (disp : ℚ) (f : FeaturesHistoricos)
    (hora : ℕ) (esM : Bool) (dr : Option ℚ) :
    ∀ x ∈ reglasDisparadas disp f hora esM dr,
      0 ≤ x.2.2 ∧ x.2.2 ≤ pesoRegla x.2.1 := by
  intro x hx
  unfold reglasDisparadas at hx
  rw [List.mem_filterMap] at hx
  obtain ⟨o, ho, hoe⟩ := hx
  simp only [List.mem_cons, List.not_mem_nil, or_false] at ho
  rcases ho with rfl | rfl | rfl | rfl | rfl <;>
    simp only [id_eq, Option.map_eq_some'] at hoe
  · obtain ⟨p, hp, rfl⟩ := hoe
    have := regla1_parcial_en_rango _ _ _ _ hp
    simpa [pesoRegla] using this
  · obtain ⟨sp, hp, rfl⟩ := hoe
    have := regla2_parcial_en_rango _ _ _ _ _ hp
    simpa [pesoRegla] using this
  · obtain ⟨p, hp, rfl⟩ := hoe
    have := regla3_parcial_en_rango _ _ _ hp
    simpa [pesoRegla] using this
  · obtain ⟨sp, hp, rfl⟩ := hoe
    have := regla4_parcial_en_rango _ _ hp
    simpa [pesoRegla] using this
  · obtain ⟨sp, hp, rfl⟩ := hoe
    have := regla5_parcial_en_rango _ _ hp
    simpa [pesoRegla] using this

/-- C5: for every input, the Rule Engine total score lies in [0,1]
whatever subset of the five rules fires; each triggered rule's
`score_parcial` is nonnegative and at most the rule's weight
(0.30, 0.25, 0.20, 0.15, 0.10); and the returned reason list has exactly
one entry per triggered rule. -/
theorem reglas_negocio_invariantes (disp : ℚ) (f : FeaturesHistoricos)
    (hora : ℕ) (esM : Bool) (dr : Option ℚ) :
    0 ≤ (aplicarReglasNegocio disp f hora esM dr).score ∧
    (aplicarReglasNegocio disp f hora esM dr).score ≤ 1 ∧
    (∀ e ∈ (aplicarReglasNegocio disp f hora esM dr).activadas,
      0 ≤ e.2 ∧ e.2 ≤ pesoRegla e.1) ∧
    (aplicarReglasNegocio disp f hora esM dr).razones.length =
      (aplicarReglasNegocio disp f hora esM dr).activadas.length := by
  have hspec := mem_reglasDisparadas_spec disp f hora esM dr
  refine ⟨?_, ?_, ?_, ?_⟩
  · simp only [aplicarReglasNegocio]
    refine le_min ?_ (by norm_num)
    refine List.sum_nonneg ?_
    intro y hy
    rw [List.mem_map] at hy
    obtain ⟨x, hx, rfl⟩ := hy
    exact (hspec x hx).1
  · simp only [aplicarReglasNegocio]
    calc min ((List.map (fun e => e.2.2)
          (reglasDisparadas disp f hora esM dr)).sum) 1.0
        ≤ 1.0 := min_le_right _ _
      _ ≤ 1 := by norm_num
  · intro e he
    simp only [aplicarReglasNegocio, List.mem_map] at he
    obtain ⟨x, hx, rfl⟩ := he
    exact hspec x hx
  · simp [aplicarReglasNegocio]

/-- Witness for C5 at the specification's worked example: terminal with
historical mean 1,000,000 and std 200,000, amount 2,000,000 at 03:00 with
madrugada history 20,000; rules 1 and 2 fire and the invariants hold at
the rule-1 entry. -/
theorem reglas_negocio_invariantes_witness :
    0 ≤ (aplicarReglasNegocio 2000000
        ⟨some 1000000, some 200000, some 20000, none, none⟩ 3 true none).score ∧
    (aplicarReglasNegocio 2000000
        ⟨some 1000000, some 200000, some 20000, none, none⟩ 3 true none).score ≤ 1 ∧
    ("regla_1_dispensacion_extrema", (0.15 : ℚ)) ∈ (aplicarReglasNegocio 2000000
        ⟨some 1000000, some 200000, some 20000, none, none⟩ 3 true none).activadas ∧
    (0 : ℚ) ≤ 0.15 ∧ (0.15 : ℚ) ≤ pesoRegla "regla_1_dispensacion_extrema" := by
  have h := reglas_negocio_invariantes 2000000
    ⟨some 1000000, some 200000, some 20000, none, none⟩ 3 true none
  have hmem : ("regla_1_dispensacion_extrema", (0.15 : ℚ)) ∈
      (aplicarReglasNegocio 2000000
        ⟨some 1000000, some 200000, some 20000, none, none⟩ 3 true none).activadas := by
    norm_num [aplicarReglasNegocio, reglasDisparadas, regla1_dispensacion_extrema,
      regla2_horario_sospechoso, regla3_cambio_drastico, regla4_historial_anomalias,
      regla5_patron_geografico, FeaturesHistoricos.promedio, FeaturesHistoricos.std,
      FeaturesHistoricos.dispMadrugada, FeaturesHistoricos.ratioVsZona,
      FeaturesHistoricos.pctAnomalias, List.filterMap, abs]
  exact ⟨h.1, h.2.1, hmem, (h.2.2.1 _ hmem).1, (h.2.2.1 _ hmem).2⟩

/-- C9: when the terminal's historical `dispensacion_promedio` resolves
to a nonpositive value (including an absent key, which defaults to 0),
every window whose hour is in 0–5 fires Rule 2 at its full 0.25 weight,
because `ratio_madrugada` resolves to 0, below the 0.1 threshold. -/
theorem regla2_con_promedio_no_positivo (disp : ℚ) (f : FeaturesHistoricos)
    (hora : ℕ) (esM : Bool) (dr : Option ℚ)
    (hprom : f.promedio ≤ 0) (hhora : hora ≤ 5) :
    regla2_horario_sospechoso f.promedio f.dispMadrugada hora esM
      = some (0.25 * 1.0) ∧
    ("regla_2_horario_sospechoso", (0.25 : ℚ)) ∈
      (aplicarReglasNegocio disp f hora esM dr).activadas := by
  have h2 : regla2_horario_sospechoso f.promedio f.dispMadrugada hora esM
      = some (0.25 * 1.0) := by
    unfold regla2_horario_sospechoso
    rw [if_pos (Or.inr hhora), if_neg (not_lt.mpr hprom), if_pos (by norm_num)]
  refine ⟨h2, ?_⟩
  have hx : (Razon.horarioSospechoso hora,
      ("regla_2_horario_sospechoso", (0.25 : ℚ))) ∈
      reglasDisparadas disp f hora esM dr := by
    unfold reglasDisparadas
    rw [List.mem_filterMap]
    refine ⟨some (Razon.horarioSospechoso hora,
      ("regla_2_horario_sospechoso", (0.25 : ℚ))), ?_, rfl⟩
    simp only [List.mem_cons]
    right; left
    rw [h2]
    norm_num
  show ("regla_2_horario_sospechoso", (0.25 : ℚ)) ∈
    (reglasDisparadas disp f hora esM dr).map (fun e => e.2)
  exact List.mem_map.mpr ⟨_, hx, rfl⟩

/-- Witness for C9: a terminal whose `dispensacion_promedio` key is
absent (so the lookup defaults to 0), scored at 03:00. -/
theorem regla2_con_promedio_no_positivo_witness :
    (⟨none, some 200000, some 20000, none, none⟩ :
        FeaturesHistoricos).promedio ≤ 0 ∧ (3 : ℕ) ≤ 5 ∧
    ("regla_2_horario_sospechoso", (0.25 : ℚ)) ∈
      (aplicarReglasNegocio 500000
        ⟨none, some 200000, some 20000, none, none⟩ 3 true none).activadas := by
  have hprom : (⟨none, some 200000, some 20000, none, none⟩ :
      FeaturesHistoricos).promedio ≤ 0 := by
    simp [FeaturesHistoricos.promedio]
  exact ⟨hprom, by norm_num,
    (regla2_con_promedio_no_positivo 500000
      ⟨none, some 200000, some 20000, none, none⟩ 3 true none hprom
      (by norm_num)).2⟩

theorem RFl.div_nan (x : RFl) : RFl.div x RFl.nan = RFl.nan := by
  cases x <;> rfl

/-- C2: a baseline with zero (or undefined) standard deviation yields the
z-score 0 in the feature engine (`z_score_vs_cajero` via
`replace(0, nan)` + `fillna(0)`), and in the rule engine the guarded
z-vs-terminal computation of Rule 1 performs no division at all: the rule
stays inactive and contributes nothing — no division by zero, no NaN. -/
theorem z_score_cero_cuando_std_cero (monto : ℚ) (promedio std : RFl)
    (disp : ℚ) (f : FeaturesHistoricos) (hora : ℕ) (esM : Bool)
    (dr : Option ℚ) (hstd : std = RFl.fin 0 ∨ std = RFl.nan)
    (hfstd : f.std = 0) :
    zScoreVsCajero monto promedio std = RFl.fin 0 ∧
    regla1_dispensacion_extrema disp f.promedio f.std = none ∧
    ∀ e ∈ (aplicarReglasNegocio disp f hora esM dr).activadas,
      e.1 ≠ "regla_1_dispensacion_extrema" := by
  have hz : zScoreVsCajero monto promedio std = RFl.fin 0 := by
    rcases hstd with rfl | rfl
    · unfold zScoreVsCajero
      rw [if_pos rfl, RFl.div_nan]
      rfl
    · unfold zScoreVsCajero
      rw [if_neg (by intro h; cases h), RFl.div_nan]
      rfl
  have h1 : regla1_dispensacion_extrema disp f.promedio f.std = none := by
    unfold regla1_dispensacion_extrema
    rw [hfstd, if_neg (by norm_num)]
  refine ⟨hz, h1, ?_⟩
  intro e he
  have he2 : e ∈ (reglasDisparadas disp f hora esM dr).map (fun e => e.2) := he
  obtain ⟨x, hx, rfl⟩ := List.mem_map.mp he2
  unfold reglasDisparadas at hx
  rw [List.mem_filterMap] at hx
  obtain ⟨o, ho, hoe⟩ := hx
  simp only [List.mem_cons, List.not_mem_nil, or_false] at ho
  rcases ho with rfl | rfl | rfl | rfl | rfl <;>
    simp only [id_eq, Option.map_eq_some'] at hoe
  · obtain ⟨p, hp, rfl⟩ := hoe
    rw [h1] at hp
    cases hp
  · obtain ⟨sp, hp, rfl⟩ := hoe
    show "regla_2_horario_sospechoso" ≠ "regla_1_dispensacion_extrema"
    decide
  · obtain ⟨p, hp, rfl⟩ := hoe
    show "regla_3_cambio_drastico" ≠ "regla_1_dispensacion_extrema"
    decide
  · obtain ⟨sp, hp, rfl⟩ := hoe
    show "regla_4_historial_anomalias" ≠ "regla_1_dispensacion_extrema"
    decide
  · obtain ⟨sp, hp, rfl⟩ := hoe
    show "regla_5_patron_geografico" ≠ "regla_1_dispensacion_extrema"
    decide

/-- Witness for C2: a terminal whose stored std is exactly 0. -/
theorem z_score_cero_cuando_std_cero_witness :
    ((RFl.fin 0 = RFl.fin 0 ∨ (RFl.fin 0 : RFl) = RFl.nan) ∧
      (⟨some 4, some 0, none, none, none⟩ : FeaturesHistoricos).std = 0) ∧
    zScoreVsCajero 10 (RFl.fin 4) (RFl.fin 0) = RFl.fin 0 ∧
    regla1_dispensacion_extrema 10
      (⟨some 4, some 0, none, none, none⟩ : FeaturesHistoricos).promedio
      (⟨some 4, some 0, none, none, none⟩ : FeaturesHistoricos).std = none := by
  have hfstd : (⟨some 4, some 0, none, none, none⟩ : FeaturesHistoricos).std = 0 := by
    simp [FeaturesHistoricos.std]
  have h := z_score_cero_cuando_std_cero 10 (RFl.fin 4) (RFl.fin 0) 10
    ⟨some 4, some 0, none, none, none⟩ 3 true none (Or.inl rfl) hfstd
  exact ⟨⟨Or.inl rfl, hfstd⟩, h.1, h.2.1⟩

/-- C1: in the rule-aware 15-minute path the final score is
`0.6 * score_IF + 0.4 * score_reglas` (the model score being the
sigmoid-normalized fraction in [0,1]), the severity tier is a pure
threshold function of that final score (>= 0.9 Crítico, >= 0.7
Advertencia, >= 0.5 Sospechoso, else Normal), and an alert is produced
exactly when the final score is >= 0.5. -/
theorem fusion_y_clasificacion (cod : String) (disp : ℚ) (fecha hora : ℕ)
    (f : FeaturesHistoricos) (scoreIF : ℚ) (det : ℕ) :
    (procesarCajero cod disp fecha hora f scoreIF det).1 =
      0.6 * scoreIF + 0.4 * (aplicarReglasNegocio disp f hora
        (decide (hora ≤ 5)) f.dispensacion_promedio).score ∧
    ((procesarCajero cod disp fecha hora f scoreIF det).2.1 = "Crítico" ↔
      0.9 ≤ (procesarCajero cod disp fecha hora f scoreIF det).1) ∧
    ((procesarCajero cod disp fecha hora f scoreIF det).2.1 = "Advertencia" ↔
      0.7 ≤ (procesarCajero cod disp fecha hora f scoreIF det).1 ∧
      (procesarCajero cod disp fecha hora f scoreIF det).1 < 0.9) ∧
    ((procesarCajero cod disp fecha hora f scoreIF det).2.1 = "Sospechoso" ↔
      0.5 ≤ (procesarCajero cod disp fecha hora f scoreIF det).1 ∧
      (procesarCajero cod disp fecha hora f scoreIF det).1 < 0.7) ∧
    ((procesarCajero cod disp fecha hora f scoreIF det).2.1 = "Normal" ↔
      (procesarCajero cod disp fecha hora f scoreIF det).1 < 0.5) ∧
    ((procesarCajero cod disp fecha hora f scoreIF det).2.2 ≠ none ↔
      0.5 ≤ (procesarCajero cod disp fecha hora f scoreIF det).1) := by
  simp only [procesarCajero]
  set s := 0.6 * scoreIF + 0.4 * (aplicarReglasNegocio disp f hora
    (decide (hora ≤ 5)) f.dispensacion_promedio).score with hs
  refine ⟨by trivial, ?_, ?_, ?_, ?_, ?_⟩
  · unfold clasificarSeveridad
    split_ifs with h1 h2 h3
    · exact iff_of_true rfl h1
    · exact iff_of_false (by decide) h1
    · exact iff_of_false (by decide) h1
    · exact iff_of_false (by decide) h1
  · unfold clasificarSeveridad
    split_ifs with h1 h2 h3
    · exact iff_of_false (by decide) (fun hc => absurd h1 (not_le.mpr hc.2))
    · exact iff_of_true rfl ⟨h2, lt_of_not_le h1⟩
    · exact iff_of_false (by decide) (fun hc => h2 hc.1)
    · exact iff_of_false (by decide) (fun hc => h2 hc.1)
  · unfold clasificarSeveridad
    split_ifs with h1 h2 h3
    · exact iff_of_false (by decide)
        (fun hc => absurd h1 (not_le.mpr (lt_of_lt_of_le hc.2 (by norm_num))))
    · exact iff_of_false (by decide) (fun hc => absurd h2 (not_le.mpr hc.2))
    · exact iff_of_true rfl ⟨h3, lt_of_not_le h2⟩
    · exact iff_of_false (by decide) (fun hc => h3 hc.1)
  · unfold clasificarSeveridad
    split_ifs with h1 h2 h3
    · exact iff_of_false (by decide)
        (fun hc => absurd h1 (not_le.mpr (lt_of_lt_of_le hc (by norm_num))))
    · exact iff_of_false (by decide)
        (fun hc => absurd h2 (not_le.mpr (lt_of_lt_of_le hc (by norm_num))))
    · exact iff_of_false (by decide) (fun hc => absurd h3 (not_le.mpr hc))
    · exact iff_of_true rfl (lt_of_not_le h3)
  · split_ifs with h hstd <;> simp [h]

/-- Counterexample for C8: on the first day of a month the code sets
`es_quincena` to true (the `dia_mes <= 1` disjunct), although day 1 is
neither in [14,16] nor >= 29, contradicting the claim's
characterisation of the mid-month flag. -/
theorem es_quincena_dia_uno :
    (calcularFlagsTemporales ⟨0, 2, 1, 3⟩).es_quincena = true ∧
    ¬ ((14 ≤ 1 ∧ 1 ≤ 16) ∨ 29 ≤ (1 : ℕ)) := by
  constructor
  · rfl
  · decide

/-- C8 (amended): the temporal flags are pure functions of the
timestamp's components; `dia_semana = dayofweek + 1` ranges over 1–7,
the weekend flag holds exactly for `dia_semana ∈ {6,7}`, the month-end
flag exactly for day-of-month >= 28, and the quincena flag exactly for
day-of-month in [14,16], or >= 29, or <= 1. -/
theorem flags_temporales_spec (t : BucketTs) (hdow : t.dayofweek ≤ 6) :
    (calcularFlagsTemporales t).hora_del_dia = t.hora ∧
    (calcularFlagsTemporales t).mes = t.mes ∧
    1 ≤ (calcularFlagsTemporales t).dia_semana ∧
    (calcularFlagsTemporales t).dia_semana ≤ 7 ∧
    ((calcularFlagsTemporales t).es_fin_de_semana = true ↔
      (calcularFlagsTemporales t).dia_semana = 6 ∨
      (calcularFlagsTemporales t).dia_semana = 7) ∧
    ((calcularFlagsTemporales t).es_fin_de_mes = true ↔ 28 ≤ t.dia) ∧
    ((calcularFlagsTemporales t).es_quincena = true ↔
      ((14 ≤ t.dia ∧ t.dia ≤ 16) ∨ 29 ≤ t.dia ∨ t.dia ≤ 1)) := by
  unfold calcularFlagsTemporales
  refine ⟨rfl, rfl, ?_, ?_, ?_, ?_, ?_⟩ <;> (simp; try omega)

/-- Witness for C8 at a mid-month Wednesday 10:00 window. -/
theorem flags_temporales_spec_witness :
    (⟨10, 2, 15, 5⟩ : BucketTs).dayofweek ≤ 6 ∧
    ((calcularFlagsTemporales ⟨10, 2, 15, 5⟩).es_quincena = true ↔
      ((14 ≤ 15 ∧ 15 ≤ 16) ∨ 29 ≤ 15 ∨ (15 : ℕ) ≤ 1)) := by
  exact ⟨by norm_num, (flags_temporales_spec ⟨10, 2, 15, 5⟩ (by norm_num)).2.2.2.2.2.2⟩

theorem foldl_min2_map_fin (t : List ℚ) (a : ℚ) :
    (t.map RFl.fin).foldl RFl.min2 (RFl.fin a) = RFl.fin (t.foldl min a) := by
  induction t generalizing a with
  | nil => rfl
  | cons h t ih => simp [List.foldl, RFl.min2, ih]

theorem foldl_max2_map_fin (t : List ℚ) (a : ℚ) :
    (t.map RFl.fin).foldl RFl.max2 (RFl.fin a) = RFl.fin (t.foldl max a) := by
  induction t generalizing a with
  | nil => rfl
  | cons h t ih => simp [List.foldl, RFl.max2, ih]

theorem foldl_min_le_init (t : List ℚ) (a : ℚ) : t.foldl min a ≤ a := by
  induction t generalizing a with
  | nil => exact le_refl a
  | cons h t ih => exact le_trans (ih (min a h)) (min_le_left a h)

theorem foldl_min_le_mem (t : List ℚ) (a x : ℚ) (hx : x ∈ t) :
    t.foldl min a ≤ x := by
  induction t generalizing a with
  | nil => cases hx
  | cons h t ih =>
    rcases List.mem_cons.mp hx with rfl | hx2
    · exact le_trans (foldl_min_le_init t (min a x)) (min_le_right a x)
    · exact ih (min a h) hx2

theorem le_foldl_max_init (t : List ℚ) (a : ℚ) : a ≤ t.foldl max a := by
  induction t generalizing a with
  | nil => exact le_refl a
  | cons h t ih => exact le_trans (le_max_left a h) (ih (max a h))

theorem mem_le_foldl_max (t : List ℚ) (a x : ℚ) (hx : x ∈ t) :
    x ≤ t.foldl max a := by
  induction t generalizing a with
  | nil => cases hx
  | cons h t ih =>
    rcases List.mem_cons.mp hx with rfl | hx2
    · exact le_trans (le_max_right a x) (le_foldl_max_init t (max a x))
    · exact ih (max a h) hx2

theorem normalizarScore_fin (mn mx q : ℚ) (h : mn ≠ mx) :
    normalizarScore (RFl.fin mn) (RFl.fin mx) (RFl.fin q) =
      RFl.fin ((1 - (q - mn) / (mx - mn)) * 100) := by
  have hne : mx - mn ≠ 0 := sub_ne_zero.mpr (Ne.symm h)
  simp [normalizarScore, RFl.sub, RFl.div, RFl.mul, hne]

/-- Counterexample for C4: the 15-minute path does not min-max-normalize
over the batch.  For the raw-score batch {0, 1} the claimed policy maps
the most anomalous (most negative) raw score 0 to 100 — the batch path
indeed computes [100, 0] — but the 15-minute path maps that same raw
score 0 through the sigmoid `1/(1 + exp(0)) = 1/2` instead of 100. -/
theorem sigmoide_no_es_minmax :
    scoreIFSigmoide 1 = 1 / 2 ∧ (1 / 2 : ℚ) ≠ 100 ∧
    normalizarScores [RFl.fin 0, RFl.fin 1] = [RFl.fin 100, RFl.fin 0] := by
  refine ⟨by norm_num [scoreIFSigmoide], by norm_num, ?_⟩
  norm_num [normalizarScores, normalizarScore, listMin, listMax,
    RFl.min2, RFl.max2, RFl.sub, RFl.div, RFl.mul]

/-- C4 (amended): the batch path (`detectar_anomalias_chunk`) rescales
the chunk's raw scores to [0,100] by min-max over the chunk, inverted so
the minimum raw score maps to 100 and the maximum to 0 (whenever the
chunk has two distinct scores); the 15-minute path instead sends each
raw score independently through the sigmoid `1/(1+exp(raw))`, a value
strictly between 0 and 1. -/
theorem normalizacion_scores_spec (qs : List ℚ) (mn mx : ℚ)
    (hmn : listMin (qs.map RFl.fin) = RFl.fin mn)
    (hmx : listMax (qs.map RFl.fin) = RFl.fin mx)
    (hlt : mn < mx) :
    (∀ x ∈ normalizarScores (qs.map RFl.fin),
      ∃ r : ℚ, x = RFl.fin r ∧ 0 ≤ r ∧ r ≤ 100) ∧
    normalizarScore (RFl.fin mn) (RFl.fin mx) (RFl.fin mn) = RFl.fin 100 ∧
    normalizarScore (RFl.fin mn) (RFl.fin mx) (RFl.fin mx) = RFl.fin 0 ∧
    (∀ e : ℚ, 0 < e → 0 < scoreIFSigmoide e ∧ scoreIFSigmoide e < 1) := by
  have hne : mn ≠ mx := ne_of_lt hlt
  have hsub : (0:ℚ) < mx - mn := sub_pos.mpr hlt
  refine ⟨?_, ?_, ?_, ?_⟩
  · intro x hx
    rw [normalizarScores, hmn, hmx, List.map_map, List.mem_map] at hx
    obtain ⟨q, hq, rfl⟩ := hx
    have hbounds : mn ≤ q ∧ q ≤ mx := by
      cases qs with
      | nil => cases hmn
      | cons q0 t =>
        rw [List.map_cons] at hmn hmx
        rw [listMin, foldl_min2_map_fin] at hmn
        rw [listMax, foldl_max2_map_fin] at hmx
        cases hmn; cases hmx
        rcases List.mem_cons.mp hq with rfl | hq2
        · exact ⟨foldl_min_le_init t q, le_foldl_max_init t q⟩
        · exact ⟨foldl_min_le_mem t q0 q hq2, mem_le_foldl_max t q0 q hq2⟩
    refine ⟨(1 - (q - mn) / (mx - mn)) * 100,
      normalizarScore_fin mn mx q hne, ?_, ?_⟩
    · have hd1 : (q - mn) / (mx - mn) ≤ 1 :=
        (div_le_one hsub).mpr (by linarith [hbounds.2])
      nlinarith
    · have hd0 : 0 ≤ (q - mn) / (mx - mn) :=
        div_nonneg (by linarith [hbounds.1]) (le_of_lt hsub)
      nlinarith
  · rw [normalizarScore_fin mn mx mn hne]
    norm_num
  · rw [normalizarScore_fin mn mx mx hne]
    rw [div_self (sub_ne_zero.mpr (Ne.symm hne))]
    norm_num
  · intro e he
    constructor
    · rw [scoreIFSigmoide]
      exact div_pos one_pos (by linarith)
    · rw [scoreIFSigmoide, div_lt_one (by linarith)]
      linarith

/-- Witness for C4 at the two-score batch {0, 1} and at the sigmoid
value exp(raw) = 1 (raw score 0). -/
theorem normalizacion_scores_spec_witness :
    listMin ([(0 : ℚ), 1].map RFl.fin) = RFl.fin 0 ∧
    listMax ([(0 : ℚ), 1].map RFl.fin) = RFl.fin 1 ∧ (0 : ℚ) < 1 ∧
    normalizarScore (RFl.fin 0) (RFl.fin 1) (RFl.fin 0) = RFl.fin 100 ∧
    0 < scoreIFSigmoide 1 ∧ scoreIFSigmoide 1 < 1 := by
  have hmn : listMin ([(0 : ℚ), 1].map RFl.fin) = RFl.fin 0 := by
    norm_num [listMin, RFl.min2]
  have hmx : listMax ([(0 : ℚ), 1].map RFl.fin) = RFl.fin 1 := by
    norm_num [listMax, RFl.max2]
  have h := normalizacion_scores_spec [0, 1] 0 1 hmn hmx (by norm_num)
  exact ⟨hmn, hmx, by norm_num, h.2.1, (h.2.2.2 1 (by norm_num)).1,
    (h.2.2.2 1 (by norm_num)).2⟩

theorem foldl_min2_const (q : ℚ) (t : List RFl)
    (hall : ∀ x ∈ t, x = RFl.fin q) :
    t.foldl RFl.min2 (RFl.fin q) = RFl.fin q := by
  induction t with
  | nil => rfl
  | cons h t ih =>
    have hh := hall h (List.mem_cons_self h t)
    subst hh
    simp only [List.foldl, RFl.min2, min_self]
    exact ih (fun x hx => hall x (List.mem_cons_of_mem _ hx))

theorem foldl_max2_const (q : ℚ) (t : List RFl)
    (hall : ∀ x ∈ t, x = RFl.fin q) :
    t.foldl RFl.max2 (RFl.fin q) = RFl.fin q := by
  induction t with
  | nil => rfl
  | cons h t ih =>
    have hh := hall h (List.mem_cons_self h t)
    subst hh
    simp only [List.foldl, RFl.max2, max_self]
    exact ih (fun x hx => hall x (List.mem_cons_of_mem _ hx))

theorem listMin_const (l : List RFl) (q : ℚ) (hne : l ≠ [])
    (hall : ∀ x ∈ l, x = RFl.fin q) : listMin l = RFl.fin q := by
  cases l with
  | nil => exact absurd rfl hne
  | cons h t =>
    have hh := hall h (List.mem_cons_self h t)
    subst hh
    exact foldl_min2_const q t (fun x hx => hall x (List.mem_cons_of_mem _ hx))

theorem listMax_const (l : List RFl) (q : ℚ) (hne : l ≠ [])
    (hall : ∀ x ∈ l, x = RFl.fin q) : listMax l = RFl.fin q := by
  cases l with
  | nil => exact absurd rfl hne
  | cons h t =>
    have hh := hall h (List.mem_cons_self h t)
    subst hh
    exact foldl_max2_const q t (fun x hx => hall x (List.mem_cons_of_mem _ hx))

theorem normalizarScore_todo_igual (q : ℚ) :
    normalizarScore (RFl.fin q) (RFl.fin q) (RFl.fin q) = RFl.nan := by
  simp [normalizarScore, RFl.sub, RFl.div, RFl.mul]

theorem length_filter_zip {α β : Type} (p : α → Bool) :
    ∀ (l1 : List α) (l2 : List β), l1.length = l2.length →
    ((l1.zip l2).filter (fun x => p x.1)).length = (l1.filter p).length := by
  intro l1
  induction l1 with
  | nil => intro l2 h; simp
  | cons a t ih =>
    intro l2 h
    cases l2 with
    | nil => cases h
    | cons b t2 =>
      have hlen : t.length = t2.length := by
        simpa using h
      simp only [List.zip_cons_cons, List.filter_cons]
      cases hpa : p a <;> simp [hpa, ih t2 hlen]

/-- C10: when all raw model scores of a chunk are equal, the min-max
normalization divides 0 by 0, so every normalized score of the chunk is
NaN rather than a value in [0,100]; these NaN scores flow unguarded into
severity classification (`determinar_severidad` compares NaN) and one
alert is still persisted for every row the model labels `-1`. -/
theorem scores_iguales_producen_nan (rows : List ChunkRow) (q : ℚ)
    (ahora : ℕ) (hne : rows ≠ [])
    (hall : ∀ r ∈ rows, r.score_raw = RFl.fin q) :
    (∀ x ∈ normalizarScores (rows.map (fun r => r.score_raw)),
      x = RFl.nan) ∧
    (∀ a ∈ detectarAnomaliasChunk rows ahora,
      a.score_anomalia = RFl.nan ∧
      a.severidad = determinarSeveridad RFl.nan
        a.descripcion.z_score_vs_cajero) ∧
    (detectarAnomaliasChunk rows ahora).length =
      (rows.filter (fun r => r.prediction = -1)).length := by
  have hmap : ∀ x ∈ rows.map (fun r => r.score_raw), x = RFl.fin q := by
    intro x hx
    obtain ⟨r, hr, rfl⟩ := List.mem_map.mp hx
    exact hall r hr
  have hne2 : rows.map (fun r => r.score_raw) ≠ [] := by
    simpa using hne
  have hmn := listMin_const _ q hne2 hmap
  have hmx := listMax_const _ q hne2 hmap
  have hnanall : ∀ x ∈ normalizarScores (rows.map (fun r => r.score_raw)),
      x = RFl.nan := by
    intro x hx
    rw [normalizarScores, hmn, hmx, List.mem_map] at hx
    obtain ⟨s, hs, rfl⟩ := hx
    rw [hmap s hs]
    exact normalizarScore_todo_igual q
  refine ⟨hnanall, ?_, ?_⟩
  · intro a ha
    simp only [detectarAnomaliasChunk] at ha
    obtain ⟨p, hp, rfl⟩ := List.mem_map.mp ha
    have hzip := (List.mem_filter.mp hp).1
    have hsnd := (List.of_mem_zip hzip).2
    have hnan := hnanall p.2 hsnd
    refine ⟨hnan, ?_⟩
    show determinarSeveridad p.2 p.1.z_score_vs_cajero =
      determinarSeveridad RFl.nan p.1.z_score_vs_cajero
    rw [hnan]
  · simp only [detectarAnomaliasChunk, List.length_map]
    exact length_filter_zip (fun r => decide (r.prediction = -1)) rows
      (normalizarScores (rows.map (fun r => r.score_raw)))
      (by simp [normalizarScores])

/-- Witness for C10: a one-row chunk whose raw score is 2 and which the
model labels anomalous. -/
theorem scores_iguales_producen_nan_witness :
    ([(⟨"7", 5, 50, 2, none, none, none, none, 3, 2, false, false,
        RFl.fin 2, -1⟩ : ChunkRow)] ≠ []) ∧
    (detectarAnomaliasChunk
      [⟨"7", 5, 50, 2, none, none, none, none, 3, 2, false, false,
        RFl.fin 2, -1⟩] 9).length =
    ([(⟨"7", 5, 50, 2, none, none, none, none, 3, 2, false, false,
        RFl.fin 2, -1⟩ : ChunkRow)].filter
      (fun r => r.prediction = -1)).length := by
  refine ⟨by simp, ?_⟩
  exact (scores_iguales_producen_nan
    [⟨"7", 5, 50, 2, none, none, none, none, 3, 2, false, false,
      RFl.fin 2, -1⟩] 2 9 (by simp)
    (by intro r hr; rw [List.mem_singleton] at hr; subst hr; rfl)).2.2

/-- Running the batch Alert Writer twice in succession, one alert row per
run, with no batch failure (the idempotence experiment of the spec). -/
def ejecutarDosVeces (tabla : List AlertaRow) (a1 a2 : AlertaRow) :
    List AlertaRow :=
  (insertarAlertasBatch (insertarAlertasBatch tabla [a1] false).1
    [a2] false).1

theorem ejecutarDosVeces_eq (tabla : List AlertaRow) (a1 a2 : AlertaRow)
    (hcod : a1.cod_cajero = a2.cod_cajero)
    (hfecha : a1.fecha_hora = a2.fecha_hora)
    (hnuevo : ∀ r ∈ tabla, mismaClave r a1 = false) :
    ejecutarDosVeces tabla a1 a2 =
      tabla ++ [actualizarPorConflicto a1 a2] := by
  have hkey : mismaClave a1 a2 = true := by
    simp [mismaClave, hcod, hfecha]
  have hanyf : tabla.any (fun r => mismaClave r a1) = false := by
    rw [List.any_eq_false]
    intro x hx
    simp [hnuevo x hx]
  have ht1 : (insertarAlertasBatch tabla [a1] false).1 = tabla ++ [a1] := by
    simp only [insertarAlertasBatch, if_neg Bool.false_ne_true,
      List.foldl_cons, List.foldl_nil]
    unfold upsertAlerta
    rw [hanyf]
    simp
  unfold ejecutarDosVeces
  rw [ht1]
  have hany : ((tabla ++ [a1]).any (fun r => mismaClave r a2)) = true := by
    simp [List.any_append, hkey]
  simp only [insertarAlertasBatch, if_neg Bool.false_ne_true,
    List.foldl_cons, List.foldl_nil]
  unfold upsertAlerta
  rw [hany]
  simp only [if_pos rfl, List.map_append, List.map_cons, List.map_nil,
    if_pos hkey]
  have hmapa : tabla.map (fun r =>
      if mismaClave r a2 then actualizarPorConflicto r a2 else r) = tabla := by
    have : ∀ r ∈ tabla, (if mismaClave r a2 then
        actualizarPorConflicto r a2 else r) = r := by
      intro r hr
      have hfalse : mismaClave r a2 = false := by
        have := hnuevo r hr
        simp only [mismaClave] at this ⊢
        rw [← hcod, ← hfecha]
        exact this
      simp [hfalse]
    rw [List.map_congr_left this]
    simp
  simp [hmapa]

/-- Counterexample for C3: the 15-minute path's Alert Writer
(`guardar_alertas`) is not idempotent in the claim's sense.  Running it
twice on the identical (terminal, window, scores) input — the two runs'
computed rows differ only in `fecha_deteccion = datetime.now()` — the
first run stores its row, but the second run's unguarded append hits the
unique (cod_cajero, fecha_hora) key, raises an uncaught
unique-violation and aborts (`none`): no upsert happens, and the stored
alert keeps the first run's detection timestamp 1000, not the second
run's computed value 2000 as the claim requires. -/
theorem guardar_alertas_no_idempotente :
    guardarAlertas []
      [⟨"100", 900, "dispensacion_anomala", "Sospechoso", 1, 5, 4, 1,
        "d", "r", "isolation_forest+reglas", 1000⟩] =
      some [⟨"100", 900, "dispensacion_anomala", "Sospechoso", 1, 5, 4, 1,
        "d", "r", "isolation_forest+reglas", 1000⟩] ∧
    guardarAlertas
      [⟨"100", 900, "dispensacion_anomala", "Sospechoso", 1, 5, 4, 1,
        "d", "r", "isolation_forest+reglas", 1000⟩]
      [⟨"100", 900, "dispensacion_anomala", "Sospechoso", 1, 5, 4, 1,
        "d", "r", "isolation_forest+reglas", 2000⟩] = none ∧
    (⟨"100", 900, "dispensacion_anomala", "Sospechoso", 1, 5, 4, 1,
        "d", "r", "isolation_forest+reglas", 1000⟩ :
      AlertaRow).fecha_deteccion ≠
    (⟨"100", 900, "dispensacion_anomala", "Sospechoso", 1, 5, 4, 1,
        "d", "r", "isolation_forest+reglas", 2000⟩ :
      AlertaRow).fecha_deteccion := by
  refine ⟨rfl, ?_, by decide⟩
  simp [guardarAlertas, hayConflictoClave, mismaClave]

/-- C3 (amended): the batch path's Alert Writer
(`insertar_alertas_batch`, upsert on (cod_cajero, fecha_hora)) is
idempotent: two successive runs on rows with the same key leave exactly
one stored alert for that key, carrying the second run's severity,
score, deviation, description, reasons and detection timestamp, while
rows for other keys are unchanged.  The 15-minute path's
`guardar_alertas` appends without conflict handling, so a reprocessing
run aborts on the unique key and never reaches this state. -/
theorem alert_writer_upsert_idempotente (tabla : List AlertaRow)
    (a1 a2 : AlertaRow)
    (hcod : a1.cod_cajero = a2.cod_cajero)
    (hfecha : a1.fecha_hora = a2.fecha_hora)
    (hnuevo : ∀ r ∈ tabla, mismaClave r a1 = false) :
    ((ejecutarDosVeces tabla a1 a2).filter
      (fun r => mismaClave r a2)).length = 1 ∧
    (∀ r ∈ ejecutarDosVeces tabla a1 a2, mismaClave r a2 = true →
      r.severidad = a2.severidad ∧ r.score_anomalia = a2.score_anomalia ∧
      r.desviacion_std = a2.desviacion_std ∧
      r.descripcion = a2.descripcion ∧ r.razones = a2.razones ∧
      r.fecha_deteccion = a2.fecha_deteccion) ∧
    (ejecutarDosVeces tabla a1 a2).filter
      (fun r => !(mismaClave r a2)) = tabla := by
  have ht := ejecutarDosVeces_eq tabla a1 a2 hcod hfecha hnuevo
  have hkeyact : mismaClave (actualizarPorConflicto a1 a2) a2 = true := by
    simp [mismaClave, actualizarPorConflicto, hcod, hfecha]
  have htabla : ∀ r ∈ tabla, mismaClave r a2 = false := by
    intro r hr
    have := hnuevo r hr
    simp only [mismaClave] at this ⊢
    rw [← hcod, ← hfecha]
    exact this
  rw [ht]
  refine ⟨?_, ?_, ?_⟩
  · rw [List.filter_append]
    have h1 : tabla.filter (fun r => mismaClave r a2) = [] := by
      rw [List.filter_eq_nil_iff]
      intro a ha
      simp [htabla a ha]
    rw [h1]
    simp [hkeyact]
  · intro r hr hkr
    rcases List.mem_append.mp hr with h | h
    · rw [htabla r h] at hkr
      cases hkr
    · rw [List.mem_singleton] at h
      subst h
      exact ⟨rfl, rfl, rfl, rfl, rfl, rfl⟩
  · rw [List.filter_append]
    have h2 : ([actualizarPorConflicto a1 a2].filter
        (fun r => !(mismaClave r a2))) = [] := by
      simp [hkeyact]
    have h3 : tabla.filter (fun r => !(mismaClave r a2)) = tabla := by
      rw [List.filter_eq_self]
      intro a ha
      simp [htabla a ha]
    rw [h2, h3]
    simp

/-- Witness for C3: a fresh store, the same alert computed by two runs
that differ only in detection timestamp and severity. -/
theorem alert_writer_upsert_idempotente_witness :
    (((⟨"100", 900, "d", "Sospechoso", 1, 5, 4, 1, "x", "r", "m", 1000⟩ :
        AlertaRow).cod_cajero =
      (⟨"100", 900, "d", "Advertencia", 2, 5, 4, 1, "y", "s", "m", 2000⟩ :
        AlertaRow).cod_cajero) ∧
    ((⟨"100", 900, "d", "Sospechoso", 1, 5, 4, 1, "x", "r", "m", 1000⟩ :
        AlertaRow).fecha_hora =
      (⟨"100", 900, "d", "Advertencia", 2, 5, 4, 1, "y", "s", "m", 2000⟩ :
        AlertaRow).fecha_hora)) ∧
    ((ejecutarDosVeces []
      ⟨"100", 900, "d", "Sospechoso", 1, 5, 4, 1, "x", "r", "m", 1000⟩
      ⟨"100", 900, "d", "Advertencia", 2, 5, 4, 1, "y", "s", "m", 2000⟩).filter
      (fun r => mismaClave r
        ⟨"100", 900, "d", "Advertencia", 2, 5, 4, 1, "y", "s", "m", 2000⟩)).length
      = 1 := by
  refine ⟨⟨rfl, rfl⟩, ?_⟩
  exact (alert_writer_upsert_idempotente []
    ⟨"100", 900, "d", "Sospechoso", 1, 5, 4, 1, "x", "r", "m", 1000⟩
    ⟨"100", 900, "d", "Advertencia", 2, 5, 4, 1, "y", "s", "m", 2000⟩
    rfl rfl (by intro r hr; cases hr)).1

/-- Counterexample for C7: the Alert Writer does not retry rows
one by one.  A batch of one row that succeeds on its own (second
conjunct) is dropped entirely when the batched write fails (first
conjunct): the `except` branch of `insertar_alertas_batch` rolls back
and returns 0 with no per-row fallback. -/
theorem insertar_alertas_sin_retry_por_fila :
    (insertarAlertasBatch []
      [⟨"100", 900, "isolation_forest", "alto", 90, 5, 4, 3,
        "d", "r", "isolation_forest_v2", 1000⟩] true).1 = [] ∧
    (insertarAlertasBatch []
      [⟨"100", 900, "isolation_forest", "alto", 90, 5, 4, 3,
        "d", "r", "isolation_forest_v2", 1000⟩] false).1 =
      [⟨"100", 900, "isolation_forest", "alto", 90, 5, 4, 3,
        "d", "r", "isolation_forest_v2", 1000⟩] := by
  constructor
  · rfl
  · simp [insertarAlertasBatch, upsertAlerta]

/-- C7 (amended): when a batched alert write fails, the Alert Writer
rolls back and skips the whole batch — the store is unchanged and 0 is
returned — and the run continues with the remaining batches; a
persistence failure never aborts the run.  (The row-by-row retry
described by the claim exists in the transaction loader
`cargar_a_postgres`, not in the Alert Writer.) -/
theorem fallo_batch_omite_lote_y_continua (tabla : List AlertaRow)
    (lote : List AlertaRow) (resto : List (List AlertaRow × Bool)) :
    insertarAlertasBatch tabla lote true = (tabla, 0) ∧
    procesarDeteccion tabla ((lote, true) :: resto) =
      procesarDeteccion tabla resto := by
  constructor
  · rfl
  · simp [procesarDeteccion, insertarAlertasBatch]

/-- Counterexample for C6: the 15-minute path does not abort on a
feature missing from the terminal's historical features — it silently
substitutes 0 and scores anyway. -/
theorem feature_ausente_sustituida_por_cero :
    prepararFeaturesModelo (fun _ => none) ["monto_promedio"] = [0] := by
  rfl

/-- C6 (amended): only the batch scoring path aborts on a
feature/artifact mismatch — `df_chunk[feature_names]` raises `KeyError`
as soon as a required feature has no column; the 15-minute path never
aborts: any feature name absent from the historical feature dictionary
(and any NaN/∞ value) is silently replaced by 0 before scoring. -/
theorem mismatch_features_spec (df : String → Option (List ℚ))
    (names : List String) (n : String)
    (hmem : n ∈ names) (hmiss : df n = none)
    (h : String → Option RFl) (i : ℕ) (fname : String)
    (hname : names.get? i = some fname) (hausente : h fname = none) :
    seleccionarColumnas df names = none ∧
    (prepararFeaturesModelo h names).length = names.length ∧
    (prepararFeaturesModelo h names).get? i = some 0 := by
  refine ⟨?_, by simp [prepararFeaturesModelo], ?_⟩
  · clear hname
    induction names with
    | nil => cases hmem
    | cons m resto ih =>
      rcases List.mem_cons.mp hmem with rfl | hm2
      · unfold seleccionarColumnas
        rw [hmiss]
      · unfold seleccionarColumnas
        cases hdm : df m with
        | none => rfl
        | some col =>
          rw [ih hm2]
          rfl
  · unfold prepararFeaturesModelo
    rw [List.get?_eq_getElem?, List.getElem?_map, ← List.get?_eq_getElem?,
      hname]
    simp [hausente]

/-- Witness for C6: the artifact requires `monto_promedio`; the chunk
has no such column and the historical dictionary has no such key. -/
theorem mismatch_features_spec_witness :
    ("monto_promedio" ∈ ["monto_promedio"] ∧
      (fun _ : String => (none : Option (List ℚ))) "monto_promedio" = none) ∧
    seleccionarColumnas (fun _ => none) ["monto_promedio"] = none ∧
    (prepararFeaturesModelo (fun _ => none) ["monto_promedio"]).get? 0 =
      some 0 := by
  have h := mismatch_features_spec (fun _ => none) ["monto_promedio"]
    "monto_promedio" (List.mem_singleton.mpr rfl) rfl
    (fun _ => none) 0 "monto_promedio" rfl rfl
  exact ⟨⟨List.mem_singleton.mpr rfl, rfl⟩, h.1, h.2.2⟩
